import Mathlib

/-!
# Verification of the rustpbx Go SDK session layer

Shallow embedding of the rustpbx Go SDK (`sdks/go/rustpbx`): the command
encoder (`types.go` struct tags together with the dispatch methods of
`connection.go`), the session connection state machine (`Close`,
`sendCommand`, `readLoop`, `handleMessage`, `handleError`, `WaitForEvent`)
and the endpoint resolver (`buildWebSocketURL`, `connectWebSocket`).

Machine integers are modelled as `Int` (no claim here depends on overflow),
Go's `encoding/json` object form as an association list of key/value pairs
in struct-field order (Go emits struct fields in declaration order), and
`omitempty` as conditional emission on the Go zero value of the field.
-/

namespace RustPBX

/-- JSON values, as produced by Go's `encoding/json`. `num` carries the
integer-valued numbers used by the SDK; `float` the `float64` fields. -/
inductive Json where
  | null
  | str (s : String)
  | num (n : Int)
  | float (f : Float)
  | bool (b : Bool)
  | arr (elems : List Json)
  | obj (fields : List (String × Json))

/-- First value bound to key `k` in a marshalled object, in field order
(mirrors reading a JSON object field on the wire). -/
def getJ : List (String × Json) → String → Option Json
  | [], _ => none
  | (k', v) :: rest, k => if k' = k then some v else getJ rest k

/-- Combine in first-wins order (used to look a key up across appended
field groups). -/
def oOr : Option Json → Option Json → Option Json
  | some v, _ => some v
  | none, b => b

/-- A `string` field tagged `omitempty`: emitted unless it is `""`. -/
def jStrOmit (k v : String) : List (String × Json) :=
  if v = "" then [] else [(k, .str v)]

/-- An `int` field tagged `omitempty`: emitted unless it is `0`. -/
def jIntOmit (k : String) (v : Int) : List (String × Json) :=
  if v = 0 then [] else [(k, .num v)]

/-- A `bool` field tagged `omitempty`: emitted unless it is `false`. -/
def jBoolOmit (k : String) (v : Bool) : List (String × Json) :=
  if v = false then [] else [(k, .bool v)]

/-- A `float64` field tagged `omitempty`: emitted unless it is zero. -/
def jFloatOmit (k : String) (v : Float) : List (String × Json) :=
  if v == 0 then [] else [(k, .float v)]

/-- Insertion step for Go's sorted map-key marshalling. -/
def insertByKey (p : String × Json) : List (String × Json) → List (String × Json)
  | [] => [p]
  | q :: rest => if p.1 < q.1 then p :: q :: rest else q :: insertByKey p rest

/-- Go marshals map entries sorted by key. -/
def sortByKey (l : List (String × Json)) : List (String × Json) :=
  l.foldr insertByKey []

/-- A `map[string]interface\x7b\x7d` field tagged `omitempty`: emitted
unless empty, with entries sorted by key. -/
def jMapOmit (k : String) (m : List (String × Json)) : List (String × Json) :=
  match m with
  | [] => []
  | _ => [(k, .obj (sortByKey m))]

/-- A `map[string]string` field tagged `omitempty`. -/
def jStrMapOmit (k : String) (m : List (String × String)) : List (String × Json) :=
  if m = [] then [] else [(k, .obj (sortByKey (m.map fun p => (p.1, .str p.2))))]

/-- A pointer-to-struct field tagged `omitempty`: omitted when nil,
a nested object otherwise. -/
def jObjOmit (k : String) (o : Option α) (f : α → List (String × Json)) :
    List (String × Json) :=
  match o with
  | none => []
  | some x => [(k, .obj (f x))]

/-- A pointer-to-struct field without `omitempty` (for example
`InviteCommand.Option`): emitted as explicit `null` when nil. -/
def jOptObj (o : Option α) (f : α → List (String × Json)) : Json :=
  match o with
  | none => .null
  | some x => .obj (f x)

/-- A `[]string` field without `omitempty`: a nil slice is emitted as
explicit `null`, a present slice as an array. -/
def jSlice (o : Option (List String)) : Json :=
  match o with
  | none => .null
  | some l => .arr (l.map .str)

/-! ## The option structs of `types.go`

Every field mirrors one Go struct field, with the Go zero value as the
default, so that `\x7b\x7d` is the Go zero struct. -/

/-- `RecorderOption`. -/
structure RecorderOption where
  recorderFile : String := ""
  sampleRate : Int := 0
  ptime : String := ""

def marshalRecorderOption (o : RecorderOption) : List (String × Json) :=
  jStrOmit "recorderFile" o.recorderFile ++ jIntOmit "samplerate" o.sampleRate ++
    jStrOmit "ptime" o.ptime

/-- `VADOption` (`VADType` is a string type in Go). -/
structure VADOption where
  type : String := ""
  aggressiveness : Int := 0

def marshalVADOption (o : VADOption) : List (String × Json) :=
  jStrOmit "type" o.type ++ jIntOmit "aggressiveness" o.aggressiveness

/-- `TranscriptionOption` (`Provider` is a string type in Go). -/
structure TranscriptionOption where
  provider : String := ""
  model : String := ""
  language : String := ""
  appId : String := ""
  secretId : String := ""
  secretKey : String := ""
  modelType : String := ""
  bufferSize : Int := 0
  sampleRate : Int := 0
  endpoint : String := ""
  extra : List (String × Json) := []

def marshalTranscriptionOption (o : TranscriptionOption) : List (String × Json) :=
  jStrOmit "provider" o.provider ++ jStrOmit "model" o.model ++
    jStrOmit "language" o.language ++ jStrOmit "appId" o.appId ++
    jStrOmit "secretId" o.secretId ++ jStrOmit "secretKey" o.secretKey ++
    jStrOmit "modelType" o.modelType ++ jIntOmit "bufferSize" o.bufferSize ++
    jIntOmit "samplerate" o.sampleRate ++ jStrOmit "endpoint" o.endpoint ++
    jMapOmit "extra" o.extra

/-- `SynthesisOption` (`TTSEmotion` is a string type in Go). -/
structure SynthesisOption where
  sampleRate : Int := 0
  provider : String := ""
  speed : Float := 0
  appId : String := ""
  secretId : String := ""
  secretKey : String := ""
  volume : Int := 0
  speaker : String := ""
  codec : String := ""
  subtitle : Bool := false
  emotion : String := ""
  endpoint : String := ""
  extra : List (String × Json) := []

def marshalSynthesisOption (o : SynthesisOption) : List (String × Json) :=
  jIntOmit "samplerate" o.sampleRate ++ jStrOmit "provider" o.provider ++
    jFloatOmit "speed" o.speed ++ jStrOmit "appId" o.appId ++
    jStrOmit "secretId" o.secretId ++ jStrOmit "secretKey" o.secretKey ++
    jIntOmit "volume" o.volume ++ jStrOmit "speaker" o.speaker ++
    jStrOmit "codec" o.codec ++ jBoolOmit "subtitle" o.subtitle ++
    jStrOmit "emotion" o.emotion ++ jStrOmit "endpoint" o.endpoint ++
    jMapOmit "extra" o.extra

/-- `SipOption`. -/
structure SipOption where
  username : String := ""
  password : String := ""
  realm : String := ""
  headers : List (String × String) := []

def marshalSipOption (o : SipOption) : List (String × Json) :=
  jStrOmit "username" o.username ++ jStrOmit "password" o.password ++
    jStrOmit "realm" o.realm ++ jStrMapOmit "headers" o.headers

/-- `EouOption` (`EOUType` is a string type in Go). -/
structure EouOption where
  type : String := ""
  endpoint : String := ""
  secretKey : String := ""
  secretId : String := ""
  timeout : Int := 0

def marshalEouOption (o : EouOption) : List (String × Json) :=
  jStrOmit "type" o.type ++ jStrOmit "endpoint" o.endpoint ++
    jStrOmit "secretKey" o.secretKey ++ jStrOmit "secretId" o.secretId ++
    jIntOmit "timeout" o.timeout

/-- `ReferOption`. -/
structure ReferOption where
  bypass : Bool := false
  timeout : Int := 0
  moh : String := ""
  autoHangup : Bool := false

def marshalReferOption (o : ReferOption) : List (String × Json) :=
  jBoolOmit "bypass" o.bypass ++ jIntOmit "timeout" o.timeout ++
    jStrOmit "moh" o.moh ++ jBoolOmit "autoHangup" o.autoHangup

/-- `CallOption` (`Codec` is a string type in Go). -/
structure CallOption where
  denoise : Bool := false
  offer : String := ""
  callee : String := ""
  caller : String := ""
  recorder : Option RecorderOption := none
  vad : Option VADOption := none
  asr : Option TranscriptionOption := none
  tts : Option SynthesisOption := none
  handshakeTimeout : String := ""
  enableIpv6 : Bool := false
  sip : Option SipOption := none
  extra : List (String × Json) := []
  codec : String := ""
  eou : Option EouOption := none

def marshalCallOption (o : CallOption) : List (String × Json) :=
  jBoolOmit "denoise" o.denoise ++ jStrOmit "offer" o.offer ++
    jStrOmit "callee" o.callee ++ jStrOmit "caller" o.caller ++
    jObjOmit "recorder" o.recorder marshalRecorderOption ++
    jObjOmit "vad" o.vad marshalVADOption ++
    jObjOmit "asr" o.asr marshalTranscriptionOption ++
    jObjOmit "tts" o.tts marshalSynthesisOption ++
    jStrOmit "handshakeTimeout" o.handshakeTimeout ++
    jBoolOmit "enableIpv6" o.enableIpv6 ++
    jObjOmit "sip" o.sip marshalSipOption ++
    jMapOmit "extra" o.extra ++ jStrOmit "codec" o.codec ++
    jObjOmit "eou" o.eou marshalEouOption

/-! ## The command variants

`GoCommand` is the sum of the typed command structs of `types.go`; each
constructor's payload is the struct's variant-specific fields, and the
`Command` discriminator field is the literal the dispatch methods of
`connection.go` put there (`Invite` writes "invite", ...). -/

inductive GoCommand where
  | invite (option : Option CallOption)
  | accept (option : Option CallOption)
  | reject (reason : String) (code : Int)
  | candidate (candidates : Option (List String))
  | tts (text speaker playId : String) (autoHangup streaming endOfStream : Bool)
  | play (url : String) (autoHangup : Bool)
  | interrupt
  | pause
  | resume
  | hangup (reason initiator : String)
  | refer (target : String) (options : Option ReferOption)
  | mute (trackId : String)
  | unmute (trackId : String)
  | history (speaker text : String)

/-- The declared name each dispatch method of `connection.go` stores in
the `Command` field. -/
def cmdName : GoCommand → String
  | .invite _ => "invite"
  | .accept _ => "accept"
  | .reject _ _ => "reject"
  | .candidate _ => "candidate"
  | .tts _ _ _ _ _ _ => "tts"
  | .play _ _ => "play"
  | .interrupt => "interrupt"
  | .pause => "pause"
  | .resume => "resume"
  | .hangup _ _ => "hangup"
  | .refer _ _ => "refer"
  | .mute _ => "mute"
  | .unmute _ => "unmute"
  | .history _ _ => "history"

/-- `json.Marshal` of each command struct, following the struct tags of
`types.go` field by field. -/
def marshalCommand : GoCommand → List (String × Json)
  | .invite o => [("command", .str "invite"), ("option", jOptObj o marshalCallOption)]
  | .accept o => [("command", .str "accept"), ("option", jOptObj o marshalCallOption)]
  | .reject r cd => [("command", .str "reject"), ("reason", .str r), ("code", .num cd)]
  | .candidate cs => [("command", .str "candidate"), ("candidates", jSlice cs)]
  | .tts t s pl ah st eos =>
      [("command", .str "tts"), ("text", .str t)] ++ jStrOmit "speaker" s ++
        jStrOmit "playId" pl ++ jBoolOmit "autoHangup" ah ++
        jBoolOmit "streaming" st ++ jBoolOmit "endOfStream" eos
  | .play u ah => [("command", .str "play"), ("url", .str u)] ++ jBoolOmit "autoHangup" ah
  | .interrupt => [("command", .str "interrupt")]
  | .pause => [("command", .str "pause")]
  | .resume => [("command", .str "resume")]
  | .hangup r i =>
      [("command", .str "hangup")] ++ jStrOmit "reason" r ++ jStrOmit "initiator" i
  | .refer tg o =>
      [("command", .str "refer"), ("target", .str tg)] ++
        jObjOmit "options" o marshalReferOption
  | .mute tid => [("command", .str "mute"), ("trackId", .str tid)]
  | .unmute tid => [("command", .str "unmute"), ("trackId", .str tid)]
  | .history s t => [("command", .str "history"), ("speaker", .str s), ("text", .str t)]

/-- The wire representation of an unset field, in the words of the spec:
an explicit `null`, empty-string, or zero value. -/
def unsetRep : Json → Bool
  | .null => true
  | .str s => s = ""
  | .num n => n = 0
  | .float f => f == 0
  | .bool b => b = false
  | .arr _ => false
  | .obj _ => false

/-- Expected lookup result for every field of every variant: the key, and
`some v` when the field is emitted with value `v`, `none` when it is
omitted. Fields tagged `omitempty` are omitted exactly on their zero
value; fields without the tag are always present. -/
def wireFields : GoCommand → List (String × Option Json)
  | .invite o => [("command", some (.str "invite")),
      ("option", some (jOptObj o marshalCallOption))]
  | .accept o => [("command", some (.str "accept")),
      ("option", some (jOptObj o marshalCallOption))]
  | .reject r cd => [("command", some (.str "reject")),
      ("reason", some (.str r)), ("code", some (.num cd))]
  | .candidate cs => [("command", some (.str "candidate")),
      ("candidates", some (jSlice cs))]
  | .tts t s pl ah st eos => [("command", some (.str "tts")),
      ("text", some (.str t)),
      ("speaker", if s = "" then none else some (.str s)),
      ("playId", if pl = "" then none else some (.str pl)),
      ("autoHangup", if ah = false then none else some (.bool ah)),
      ("streaming", if st = false then none else some (.bool st)),
      ("endOfStream", if eos = false then none else some (.bool eos))]
  | .play u ah => [("command", some (.str "play")), ("url", some (.str u)),
      ("autoHangup", if ah = false then none else some (.bool ah))]
  | .interrupt => [("command", some (.str "interrupt"))]
  | .pause => [("command", some (.str "pause"))]
  | .resume => [("command", some (.str "resume"))]
  | .hangup r i => [("command", some (.str "hangup")),
      ("reason", if r = "" then none else some (.str r)),
      ("initiator", if i = "" then none else some (.str i))]
  | .refer tg o => [("command", some (.str "refer")), ("target", some (.str tg)),
      ("options", o.map fun x => .obj (marshalReferOption x))]
  | .mute tid => [("command", some (.str "mute")), ("trackId", some (.str tid))]
  | .unmute tid => [("command", some (.str "unmute")), ("trackId", some (.str tid))]
  | .history s t => [("command", some (.str "history")),
      ("speaker", some (.str s)), ("text", some (.str t))]

/-- The keys of a variant that the struct tags mark as always emitted
(no `omitempty`). -/
def requiredKeys : GoCommand → List String
  | .invite _ => ["command", "option"]
  | .accept _ => ["command", "option"]
  | .reject _ _ => ["command", "reason", "code"]
  | .candidate _ => ["command", "candidates"]
  | .tts _ _ _ _ _ _ => ["command", "text"]
  | .play _ _ => ["command", "url"]
  | .interrupt => ["command"]
  | .pause => ["command"]
  | .resume => ["command"]
  | .hangup _ _ => ["command"]
  | .refer _ _ => ["command", "target"]
  | .mute _ => ["command", "trackId"]
  | .unmute _ => ["command", "trackId"]
  | .history _ _ => ["command", "speaker", "text"]

/-! ## Lookup lemmas for the wire form -/

theorem oOr_some (v : Json) (b : Option Json) : oOr (some v) b = some v := rfl

theorem oOr_none (b : Option Json) : oOr none b = b := rfl

theorem oOr_none_right (a : Option Json) : oOr a none = a := by
  cases a <;> rfl

theorem getJ_append (a b : List (String × Json)) (k : String) :
    getJ (a ++ b) k = oOr (getJ a k) (getJ b k) := by
  induction a with
  | nil => simp [getJ, oOr]
  | cons p rest ih =>
      obtain ⟨k', v⟩ := p
      by_cases h : k' = k <;> simp [getJ, h, oOr, ih]

theorem getJ_jStrOmit_self (k v : String) :
    getJ (jStrOmit k v) k = if v = "" then none else some (.str v) := by
  by_cases hv : v = "" <;> simp [jStrOmit, hv, getJ]

theorem getJ_jStrOmit_ne {k' k : String} (v : String) (h : ¬ k' = k) :
    getJ (jStrOmit k' v) k = none := by
  by_cases hv : v = "" <;> simp [jStrOmit, hv, getJ, h]

theorem getJ_jBoolOmit_self (k : String) (v : Bool) :
    getJ (jBoolOmit k v) k = if v = false then none else some (.bool v) := by
  by_cases hv : v = false <;> simp [jBoolOmit, hv, getJ]

theorem getJ_jBoolOmit_ne {k' k : String} (v : Bool) (h : ¬ k' = k) :
    getJ (jBoolOmit k' v) k = none := by
  by_cases hv : v = false <;> simp [jBoolOmit, hv, getJ, h]

theorem getJ_jObjOmit_self (k : String) (o : Option α) (f : α → List (String × Json)) :
    getJ (jObjOmit k o f) k = o.map fun x => .obj (f x) := by
  cases o <;> simp [jObjOmit, getJ]

/-! ## Every combinator-emitted entry carries a set (non-zero) value -/

theorem unsetRep_of_mem_jStrOmit {p : String × Json} {k v : String}
    (h : p ∈ jStrOmit k v) : unsetRep p.2 = false := by
  by_cases hv : v = "" <;> simp [jStrOmit, hv] at h
  subst h
  simp [unsetRep, hv]

theorem unsetRep_of_mem_jIntOmit {p : String × Json} {k : String} {v : Int}
    (h : p ∈ jIntOmit k v) : unsetRep p.2 = false := by
  by_cases hv : v = 0 <;> simp [jIntOmit, hv] at h
  subst h
  simp [unsetRep, hv]

theorem unsetRep_of_mem_jBoolOmit {p : String × Json} {k : String} {v : Bool}
    (h : p ∈ jBoolOmit k v) : unsetRep p.2 = false := by
  by_cases hv : v = false <;> simp [jBoolOmit, hv] at h
  subst h
  simp [unsetRep, hv]

theorem unsetRep_of_mem_jFloatOmit {p : String × Json} {k : String} {v : Float}
    (h : p ∈ jFloatOmit k v) : unsetRep p.2 = false := by
  by_cases hv : (v == 0) = true <;> simp [jFloatOmit, hv] at h
  subst h
  simp [unsetRep, hv]

theorem unsetRep_of_mem_jObjOmit {p : String × Json} {k : String} {o : Option α}
    {f : α → List (String × Json)} (h : p ∈ jObjOmit k o f) : unsetRep p.2 = false := by
  cases o <;> simp [jObjOmit] at h
  subst h
  simp [unsetRep]

theorem unsetRep_of_mem_jMapOmit {p : String × Json} {k : String}
    {m : List (String × Json)} (h : p ∈ jMapOmit k m) : unsetRep p.2 = false := by
  cases m <;> simp [jMapOmit] at h
  subst h
  simp [unsetRep]

theorem unsetRep_of_mem_jStrMapOmit {p : String × Json} {k : String}
    {m : List (String × String)} (h : p ∈ jStrMapOmit k m) : unsetRep p.2 = false := by
  cases m <;> simp [jStrMapOmit] at h
  subst h
  simp [unsetRep]

/-! ## Serialization facts used by the C1 verdict -/

theorem marshal_discriminator (c : GoCommand) :
    getJ (marshalCommand c) "command" = some (.str (cmdName c)) := by
  cases c <;> simp [marshalCommand, cmdName, getJ]

theorem marshal_fields (c : GoCommand) {k : String} {ov : Option Json}
    (h : (k, ov) ∈ wireFields c) : getJ (marshalCommand c) k = ov := by
  cases c <;> simp only [wireFields, List.mem_cons, List.not_mem_nil, or_false,
    Prod.mk.injEq] at h
  case invite o =>
    rcases h with ⟨rfl, rfl⟩ | ⟨rfl, rfl⟩ <;> simp [marshalCommand, getJ]
  case accept o =>
    rcases h with ⟨rfl, rfl⟩ | ⟨rfl, rfl⟩ <;> simp [marshalCommand, getJ]
  case reject r cd =>
    rcases h with ⟨rfl, rfl⟩ | ⟨rfl, rfl⟩ | ⟨rfl, rfl⟩ <;> simp [marshalCommand, getJ]
  case candidate cs =>
    rcases h with ⟨rfl, rfl⟩ | ⟨rfl, rfl⟩ <;> simp [marshalCommand, getJ]
  case tts t s pl ah st eos =>
    rcases h with ⟨rfl, rfl⟩ | ⟨rfl, rfl⟩ | ⟨rfl, rfl⟩ | ⟨rfl, rfl⟩ | ⟨rfl, rfl⟩ |
      ⟨rfl, rfl⟩ | ⟨rfl, rfl⟩ <;>
    simp [marshalCommand, getJ, getJ_append, oOr_some, oOr_none, oOr_none_right,
      getJ_jStrOmit_self, getJ_jStrOmit_ne, getJ_jBoolOmit_self, getJ_jBoolOmit_ne]
  case play u ah =>
    rcases h with ⟨rfl, rfl⟩ | ⟨rfl, rfl⟩ | ⟨rfl, rfl⟩ <;>
    simp [marshalCommand, getJ, getJ_append, oOr_some, oOr_none, oOr_none_right,
      getJ_jBoolOmit_self, getJ_jBoolOmit_ne]
  case interrupt => rcases h with ⟨rfl, rfl⟩; simp [marshalCommand, getJ]
  case pause => rcases h with ⟨rfl, rfl⟩; simp [marshalCommand, getJ]
  case resume => rcases h with ⟨rfl, rfl⟩; simp [marshalCommand, getJ]
  case hangup r i =>
    rcases h with ⟨rfl, rfl⟩ | ⟨rfl, rfl⟩ | ⟨rfl, rfl⟩ <;>
    simp [marshalCommand, getJ, getJ_append, oOr_some, oOr_none, oOr_none_right,
      getJ_jStrOmit_self, getJ_jStrOmit_ne]
  case refer tg o =>
    rcases h with ⟨rfl, rfl⟩ | ⟨rfl, rfl⟩ | ⟨rfl, rfl⟩ <;>
    simp [marshalCommand, getJ, getJ_append, oOr_some, oOr_none, oOr_none_right,
      getJ_jObjOmit_self]
  case mute tid =>
    rcases h with ⟨rfl, rfl⟩ | ⟨rfl, rfl⟩ <;> simp [marshalCommand, getJ]
  case unmute tid =>
    rcases h with ⟨rfl, rfl⟩ | ⟨rfl, rfl⟩ <;> simp [marshalCommand, getJ]
  case history s t =>
    rcases h with ⟨rfl, rfl⟩ | ⟨rfl, rfl⟩ | ⟨rfl, rfl⟩ <;> simp [marshalCommand, getJ]

theorem marshal_no_unset_optional (c : GoCommand) {p : String × Json}
    (hp : p ∈ marshalCommand c) (hreq : p.1 ∉ requiredKeys c) :
    unsetRep p.2 = false := by
  cases c <;>
    simp only [marshalCommand, List.mem_append, List.mem_cons, List.not_mem_nil,
      or_false] at hp
  case invite o =>
    rcases hp with rfl | rfl <;> simp [requiredKeys] at hreq
  case accept o =>
    rcases hp with rfl | rfl <;> simp [requiredKeys] at hreq
  case reject r cd =>
    rcases hp with rfl | rfl | rfl <;> simp [requiredKeys] at hreq
  case candidate cs =>
    rcases hp with rfl | rfl <;> simp [requiredKeys] at hreq
  case tts t s pl ah st eos =>
    rcases hp with (((((rfl | rfl) | hp) | hp) | hp) | hp) | hp
    · simp [requiredKeys] at hreq
    · simp [requiredKeys] at hreq
    · exact unsetRep_of_mem_jStrOmit hp
    · exact unsetRep_of_mem_jStrOmit hp
    · exact unsetRep_of_mem_jBoolOmit hp
    · exact unsetRep_of_mem_jBoolOmit hp
    · exact unsetRep_of_mem_jBoolOmit hp
  case play u ah =>
    rcases hp with (rfl | rfl) | hp
    · simp [requiredKeys] at hreq
    · simp [requiredKeys] at hreq
    · exact unsetRep_of_mem_jBoolOmit hp
  case interrupt => rcases hp with rfl; simp [requiredKeys] at hreq
  case pause => rcases hp with rfl; simp [requiredKeys] at hreq
  case resume => rcases hp with rfl; simp [requiredKeys] at hreq
  case hangup r i =>
    rcases hp with (rfl | hp) | hp
    · simp [requiredKeys] at hreq
    · exact unsetRep_of_mem_jStrOmit hp
    · exact unsetRep_of_mem_jStrOmit hp
  case refer tg o =>
    rcases hp with (rfl | rfl) | hp
    · simp [requiredKeys] at hreq
    · simp [requiredKeys] at hreq
    · exact unsetRep_of_mem_jObjOmit hp
  case mute tid =>
    rcases hp with rfl | rfl <;> simp [requiredKeys] at hreq
  case unmute tid =>
    rcases hp with rfl | rfl <;> simp [requiredKeys] at hreq
  case history s t =>
    rcases hp with rfl | rfl | rfl <;> simp [requiredKeys] at hreq

theorem noUnset_marshalCallOption (o : CallOption) {p : String × Json}
    (hp : p ∈ marshalCallOption o) : unsetRep p.2 = false := by
  simp only [marshalCallOption, List.mem_append] at hp
  rcases hp with
    ((((((((((((hp | hp) | hp) | hp) | hp) | hp) | hp) | hp) | hp) | hp) | hp) | hp) | hp) | hp <;>
  first
    | exact unsetRep_of_mem_jStrOmit hp
    | exact unsetRep_of_mem_jIntOmit hp
    | exact unsetRep_of_mem_jBoolOmit hp
    | exact unsetRep_of_mem_jFloatOmit hp
    | exact unsetRep_of_mem_jObjOmit hp
    | exact unsetRep_of_mem_jMapOmit hp

theorem noUnset_marshalRecorderOption (o : RecorderOption) {p : String × Json}
    (hp : p ∈ marshalRecorderOption o) : unsetRep p.2 = false := by
  simp only [marshalRecorderOption, List.mem_append] at hp
  rcases hp with (hp | hp) | hp <;>
  first
    | exact unsetRep_of_mem_jStrOmit hp
    | exact unsetRep_of_mem_jIntOmit hp

theorem noUnset_marshalVADOption (o : VADOption) {p : String × Json}
    (hp : p ∈ marshalVADOption o) : unsetRep p.2 = false := by
  simp only [marshalVADOption, List.mem_append] at hp
  rcases hp with hp | hp <;>
  first
    | exact unsetRep_of_mem_jStrOmit hp
    | exact unsetRep_of_mem_jIntOmit hp

theorem noUnset_marshalTranscriptionOption (o : TranscriptionOption) {p : String × Json}
    (hp : p ∈ marshalTranscriptionOption o) : unsetRep p.2 = false := by
  simp only [marshalTranscriptionOption, List.mem_append] at hp
  rcases hp with
    (((((((((hp | hp) | hp) | hp) | hp) | hp) | hp) | hp) | hp) | hp) | hp <;>
  first
    | exact unsetRep_of_mem_jStrOmit hp
    | exact unsetRep_of_mem_jIntOmit hp
    | exact unsetRep_of_mem_jMapOmit hp

theorem noUnset_marshalSynthesisOption (o : SynthesisOption) {p : String × Json}
    (hp : p ∈ marshalSynthesisOption o) : unsetRep p.2 = false := by
  simp only [marshalSynthesisOption, List.mem_append] at hp
  rcases hp with
    (((((((((((hp | hp) | hp) | hp) | hp) | hp) | hp) | hp) | hp) | hp) | hp) | hp) | hp <;>
  first
    | exact unsetRep_of_mem_jStrOmit hp
    | exact unsetRep_of_mem_jIntOmit hp
    | exact unsetRep_of_mem_jBoolOmit hp
    | exact unsetRep_of_mem_jFloatOmit hp
    | exact unsetRep_of_mem_jMapOmit hp

theorem noUnset_marshalSipOption (o : SipOption) {p : String × Json}
    (hp : p ∈ marshalSipOption o) : unsetRep p.2 = false := by
  simp only [marshalSipOption, List.mem_append] at hp
  rcases hp with ((hp | hp) | hp) | hp <;>
  first
    | exact unsetRep_of_mem_jStrOmit hp
    | exact unsetRep_of_mem_jStrMapOmit hp

theorem noUnset_marshalEouOption (o : EouOption) {p : String × Json}
    (hp : p ∈ marshalEouOption o) : unsetRep p.2 = false := by
  simp only [marshalEouOption, List.mem_append] at hp
  rcases hp with (((hp | hp) | hp) | hp) | hp <;>
  first
    | exact unsetRep_of_mem_jStrOmit hp
    | exact unsetRep_of_mem_jIntOmit hp

theorem noUnset_marshalReferOption (o : ReferOption) {p : String × Json}
    (hp : p ∈ marshalReferOption o) : unsetRep p.2 = false := by
  simp only [marshalReferOption, List.mem_append] at hp
  rcases hp with ((hp | hp) | hp) | hp <;>
  first
    | exact unsetRep_of_mem_jStrOmit hp
    | exact unsetRep_of_mem_jIntOmit hp
    | exact unsetRep_of_mem_jBoolOmit hp

/-! ## Claim C1 -/

/-- C1 (counterexample): `Invite` with a nil `CallOption` pointer serializes
the unset optional `option` field as an explicit `null` on the wire (the
`option` struct tag carries no `omitempty`), so the claim that unset
optional fields are never emitted as explicit null values fails. -/
theorem c1_nil_option_emits_null :
    marshalCommand (.invite none) =
      [("command", .str "invite"), ("option", Json.null)] ∧
    unsetRep Json.null = true :=
  ⟨rfl, rfl⟩

/-- C1 (amended): for every command variant the wire object's discriminator
field `command` equals the command's declared name; every field tagged
`omitempty` (at command level and throughout the `CallOption` tree) is
omitted when unset and carries exactly the populated value otherwise, so no
explicit null/empty/zero is ever emitted for such a field; but the fields
without `omitempty` (`option`, `candidates`, `reason`, `code`, `text`,
`url`, `target`, `trackId`, `speaker`) are always emitted, as explicit
null/empty/zero values when unset. -/
theorem c1_wire_serialization :
    (∀ c : GoCommand, getJ (marshalCommand c) "command" = some (.str (cmdName c))) ∧
    (∀ c : GoCommand, ∀ k : String, ∀ ov : Option Json,
      (k, ov) ∈ wireFields c → getJ (marshalCommand c) k = ov) ∧
    (∀ c : GoCommand, ∀ p ∈ marshalCommand c,
      p.1 ∉ requiredKeys c → unsetRep p.2 = false) ∧
    (∀ o : CallOption, ∀ p ∈ marshalCallOption o, unsetRep p.2 = false) ∧
    (∀ o : RecorderOption, ∀ p ∈ marshalRecorderOption o, unsetRep p.2 = false) ∧
    (∀ o : VADOption, ∀ p ∈ marshalVADOption o, unsetRep p.2 = false) ∧
    (∀ o : TranscriptionOption, ∀ p ∈ marshalTranscriptionOption o, unsetRep p.2 = false) ∧
    (∀ o : SynthesisOption, ∀ p ∈ marshalSynthesisOption o, unsetRep p.2 = false) ∧
    (∀ o : SipOption, ∀ p ∈ marshalSipOption o, unsetRep p.2 = false) ∧
    (∀ o : EouOption, ∀ p ∈ marshalEouOption o, unsetRep p.2 = false) ∧
    (∀ o : ReferOption, ∀ p ∈ marshalReferOption o, unsetRep p.2 = false) :=
  ⟨marshal_discriminator,
   fun c _ _ h => marshal_fields c h,
   fun c _ hp hreq => marshal_no_unset_optional c hp hreq,
   fun o _ hp => noUnset_marshalCallOption o hp,
   fun o _ hp => noUnset_marshalRecorderOption o hp,
   fun o _ hp => noUnset_marshalVADOption o hp,
   fun o _ hp => noUnset_marshalTranscriptionOption o hp,
   fun o _ hp => noUnset_marshalSynthesisOption o hp,
   fun o _ hp => noUnset_marshalSipOption o hp,
   fun o _ hp => noUnset_marshalEouOption o hp,
   fun o _ hp => noUnset_marshalReferOption o hp⟩

/-- C1 witness: the amended theorem evaluated on a concrete `tts` command —
the populated `speaker` field is preserved verbatim and the unset `playId`
field is omitted. -/
theorem c1_wire_serialization_witness :
    getJ (marshalCommand (.tts "hello" "alice" "" false true false)) "speaker" =
      some (.str "alice") ∧
    getJ (marshalCommand (.tts "hello" "alice" "" false true false)) "playId" = none :=
  ⟨c1_wire_serialization.2.1 (.tts "hello" "alice" "" false true false)
      "speaker" (some (.str "alice")) (by simp [wireFields]),
   c1_wire_serialization.2.1 (.tts "hello" "alice" "" false true false)
      "playId" none (by simp [wireFields])⟩

/-! ## The session connection state machine (`connection.go`)

Sequential model of one `Connection`. The per-connection mutex serializes
`Send`, `Close`, `OnEvent` and the handler swap of `WaitForEvent`, so
interleaved executions are modelled as sequences of atomic operations on
one state. Transport write success/failure is an oracle `Bool` argument. -/

/-- The `Event` struct of `types.go` (Go zero values as defaults). -/
structure Event where
  event : String := ""
  trackId : String := ""
  timestamp : Int := 0
  caller : String := ""
  callee : String := ""
  sdp : String := ""
  earlyMedia : Bool := false
  reason : String := ""
  initiator : String := ""
  index : Int := 0
  startTime : Int := 0
  endTime : Int := 0
  text : String := ""
  duration : Int := 0
  digit : String := ""
  sender : String := ""
  error : String := ""
  code : Int := 0
  data : Option Json := none

/-- Event handlers: either a caller-supplied function (identified by an
id) or the temporary closure `WaitForEvent` installs, which captures the
previously active handler and the awaited discriminator. -/
inductive Handler where
  | user (id : Nat)
  | waiter (orig : Option Handler) (eventType : String)

/-- Frames written to the underlying WebSocket. -/
inductive WireMsg where
  | text (fields : List (String × Json))
  | closeFrame

/-- The mutable state of a `Connection`: the `closed` flag, the context
cancellation, the active handler, the frames written to the transport,
whether `conn.Close()` ran, and the `done` channel (closed on loop exit). -/
structure ConnState where
  closed : Bool := false
  cancelled : Bool := false
  handler : Option Handler := none
  written : List WireMsg := []
  transportClosed : Bool := false
  done : Bool := false

/-- `sendCommand`: fail with "connection is closed" when the flag is set
(checked once before marshalling and once under the write lock — the two
checks collapse in the sequential model), otherwise marshal and write the
text frame; a transport write failure transmits nothing. -/
def sendCommand (writeOk : Bool) (c : GoCommand) (st : ConnState) :
    Except String Unit × ConnState :=
  if st.closed then (.error "connection is closed", st)
  else if st.closed then (.error "connection is closed", st)
  else if writeOk then
    (.ok (), { st with written := st.written ++ [.text (marshalCommand c)] })
  else (.error "failed to send command", st)

/-- `Close`: a no-op returning nil when already closed; otherwise set the
closed flag and cancel the context first, then attempt the cooperative
close frame — on write failure tear the transport down and return the
write error, on success wait (done or 5s grace) and tear down, returning
nil. -/
def Close (closeWriteOk : Bool) (st : ConnState) : Option String × ConnState :=
  if st.closed then (none, st)
  else
    let st1 := { st with closed := true, cancelled := true }
    if closeWriteOk then
      (none, { st1 with written := st1.written ++ [.closeFrame],
                        transportClosed := true })
    else
      (some "websocket: close write error", { st1 with transportClosed := true })

/-- One caller-side operation on the connection. -/
inductive COp where
  | send (writeOk : Bool) (c : GoCommand)
  | close (writeOk : Bool)

def stepOp : COp → ConnState → ConnState
  | .send w c, st => (sendCommand w c st).2
  | .close w, st => (Close w st).2

def runOps : List COp → ConnState → ConnState
  | [], st => st
  | op :: rest, st => runOps rest (stepOp op st)

theorem sendCommand_of_closed (w : Bool) (c : GoCommand) (st : ConnState)
    (h : st.closed = true) :
    sendCommand w c st = (.error "connection is closed", st) := by
  simp [sendCommand, h]

theorem Close_of_closed (w : Bool) (st : ConnState) (h : st.closed = true) :
    Close w st = (none, st) := by
  simp [Close, h]

theorem Close_closed (w : Bool) (st : ConnState) : (Close w st).2.closed = true := by
  by_cases h : st.closed = true <;> by_cases hw : w = true <;> simp [Close, h, hw]

theorem stepOp_closed_mono (op : COp) (st : ConnState) (h : st.closed = true) :
    (stepOp op st).closed = true := by
  cases op with
  | send w c => simp [stepOp, sendCommand, h]
  | close w => exact Close_closed w st

theorem runOps_closed_mono (ops : List COp) (st : ConnState) (h : st.closed = true) :
    (runOps ops st).closed = true := by
  induction ops generalizing st with
  | nil => exact h
  | cons op rest ih => exact ih (stepOp op st) (stepOp_closed_mono op st h)

/-! ## Claim C2 -/

/-- C2: once `Close` has run on the connection, every later `sendCommand`
— after any further sequence of operations, with any transport write
oracle, for any command — fails with the closed-connection error and
leaves the state (in particular the list of transmitted frames)
unchanged. -/
theorem c2_send_after_close_fails (st : ConnState) (wClose : Bool)
    (ops : List COp) (wSend : Bool) (c : GoCommand) :
    sendCommand wSend c (runOps ops (Close wClose st).2) =
      (.error "connection is closed", runOps ops (Close wClose st).2) := by
  exact sendCommand_of_closed wSend c _
    (runOps_closed_mono ops _ (Close_closed wClose st))

/-! ## Claim C4 -/

/-- C4: `Close` is idempotent — the first call marks the connection closed,
and any later call (after any serialized interleaving of operations, which
is what concurrent calls reduce to under the connection mutex) is a no-op
returning nil. -/
theorem c4_close_idempotent (st : ConnState) (w1 : Bool) (ops : List COp)
    (w2 : Bool) :
    (Close w1 st).2.closed = true ∧
    Close w2 (runOps ops (Close w1 st).2) =
      (none, runOps ops (Close w1 st).2) := by
  exact ⟨Close_closed w1 st,
    Close_of_closed w2 _ (runOps_closed_mono ops _ (Close_closed w1 st))⟩

/-! ## Claim C10 -/

/-- C10: when the first `Close` fails to write the cooperative close frame
it reports the write error, yet the connection was already irreversibly
marked closed: every subsequent send fails as closed and transmits
nothing, and every subsequent `Close` returns nil and changes nothing. -/
theorem c10_failed_close_write (st : ConnState) (h : st.closed = false) :
    (Close false st).1.isSome = true ∧
    (Close false st).2.closed = true ∧
    (∀ wSend c, sendCommand wSend c (runOps [] (Close false st).2) =
      (.error "connection is closed", (Close false st).2)) ∧
    (∀ ops w2, Close w2 (runOps ops (Close false st).2) =
      (none, runOps ops (Close false st).2)) := by
  refine ⟨by simp [Close, h], Close_closed false st, ?_, ?_⟩
  · intro wSend c
    exact sendCommand_of_closed wSend c _ (Close_closed false st)
  · intro ops w2
    exact Close_of_closed w2 _ (runOps_closed_mono ops _ (Close_closed false st))

/-- C10 witness: the fresh connection state, concretely. -/
theorem c10_failed_close_write_witness :
    (Close false {}).1.isSome = true ∧ (Close false {}).2.closed = true ∧
    sendCommand true .interrupt (Close false {}).2 =
      (.error "connection is closed", (Close false {}).2) :=
  ⟨(c10_failed_close_write {} rfl).1,
   (c10_failed_close_write {} rfl).2.1,
   (c10_failed_close_write {} rfl).2.2.1 true .interrupt⟩

/-! ## The receive loop (`readLoop`, `handleMessage`, `handleError`) -/

/-- Inbound frame payloads; `json.Unmarshal` into `Event` is abstracted to
whether the frame decodes, which is all `handleMessage` inspects. -/
inductive FrameData where
  | wellFormed (e : Event)
  | malformed

def parseEvent : FrameData → Option Event
  | .wellFormed e => some e
  | .malformed => none

/-- The synthetic local error event `handleError` builds: discriminator
"error", current Unix-milli timestamp, error text. -/
def mkErrorEvent (msg : String) (now : Int) : Event :=
  { event := "error", timestamp := now, error := msg }

/-- `handleError`: deliver one synthetic error event to the active handler
when one is registered (the returned list is the events handed to the
handler). -/
def handleError (st : ConnState) (msg : String) (now : Int) : List Event :=
  match st.handler with
  | some _ => [mkErrorEvent msg now]
  | none => []

/-- `handleMessage`: a frame that fails to decode is routed through
`handleError` (the Go error text is "failed to parse event: ..."); a
decoded event is handed to the active handler if one is registered. -/
def handleMessage (st : ConnState) (d : FrameData) (now : Int) : List Event :=
  match parseEvent d with
  | none => handleError st "failed to parse event" now
  | some e =>
      match st.handler with
      | some _ => [e]
      | none => []

/-- What one `ReadMessage` call produced. -/
inductive ReadResult where
  | msg (messageType : Int) (d : FrameData)
  | readErr (e : String)

/-- `websocket.TextMessage`. -/
def textMessage : Int := 1

/-- Outcome of one iteration of `readLoop`: whether the loop keeps
running, the connection state afterwards (the deferred `close(c.done)`
fires on exit), and the events delivered to the active handler. -/
structure LoopStep where
  again : Bool
  st : ConnState
  delivered : List Event

/-- One iteration of `readLoop`: exit silently when the context is
cancelled; on a read error exit, synthesizing a local error event unless
the error was close-induced (`isClosed`); on a text frame run
`handleMessage` and keep looping; ignore non-text frames. -/
def readLoopIter (st : ConnState) (r : ReadResult) (now : Int) : LoopStep :=
  if st.cancelled then ⟨false, { st with done := true }, []⟩
  else
    match r with
    | .readErr e =>
        if st.closed = false then
          ⟨false, { st with done := true },
            handleError st ("WebSocket read error: " ++ e) now⟩
        else ⟨false, { st with done := true }, []⟩
    | .msg mt d =>
        if mt = textMessage then ⟨true, st, handleMessage st d now⟩
        else ⟨true, st, []⟩

/-! ## Claim C3 -/

/-- C3 (counterexample): after a fatal read error on a live connection the
loop exits and delivers the synthetic error event, but the connection does
NOT transition to the closed state: the `closed` flag is still false and a
subsequent `Send` succeeds and transmits, contradicting the claimed
transition to closed. -/
theorem c3_no_closed_transition_on_fatal_error :
    (readLoopIter { handler := some (.user 0) }
        (.readErr "connection reset by peer") 42).st.closed = false ∧
    (readLoopIter { handler := some (.user 0) }
        (.readErr "connection reset by peer") 42).again = false ∧
    (readLoopIter { handler := some (.user 0) }
        (.readErr "connection reset by peer") 42).delivered =
      [mkErrorEvent "WebSocket read error: connection reset by peer" 42] ∧
    (sendCommand true .interrupt
        (readLoopIter { handler := some (.user 0) }
          (.readErr "connection reset by peer") 42).st).1 = .ok () :=
  ⟨rfl, rfl, rfl, rfl⟩

/-- C3 (amended): on a fatal, non-close-induced read error the loop exits
and completes the done signal, and exactly one final synthetic event with
discriminator "error", carrying the wrapped error text and the timestamp,
is delivered to the active handler when one is registered (none
otherwise) — but the loop leaves the `closed` flag untouched; only `Close`
moves the connection to the closed state. -/
theorem c3_fatal_error_behaviour (st : ConnState) (e : String) (now : Int)
    (hcan : st.cancelled = false) (hcl : st.closed = false) :
    (readLoopIter st (.readErr e) now).again = false ∧
    (readLoopIter st (.readErr e) now).st = { st with done := true } ∧
    (readLoopIter st (.readErr e) now).st.closed = false ∧
    (st.handler.isSome →
      (readLoopIter st (.readErr e) now).delivered =
        [mkErrorEvent ("WebSocket read error: " ++ e) now]) ∧
    (st.handler = none → (readLoopIter st (.readErr e) now).delivered = []) ∧
    (mkErrorEvent ("WebSocket read error: " ++ e) now).event = "error" ∧
    (mkErrorEvent ("WebSocket read error: " ++ e) now).error =
      "WebSocket read error: " ++ e ∧
    (mkErrorEvent ("WebSocket read error: " ++ e) now).timestamp = now := by
  refine ⟨by simp [readLoopIter, hcan, hcl], by simp [readLoopIter, hcan, hcl],
    by simp [readLoopIter, hcan, hcl], ?_, ?_, rfl, rfl, rfl⟩
  · intro hh
    match hhandler : st.handler with
    | some h => simp [readLoopIter, hcan, hcl, handleError, hhandler]
    | none => simp [hhandler] at hh
  · intro hh
    simp [readLoopIter, hcan, hcl, handleError, hh]

/-- C3 witness: a live connection with a registered handler, concretely. -/
theorem c3_fatal_error_behaviour_witness :
    (readLoopIter { handler := some (.user 7) } (.readErr "eof") 5).again = false ∧
    (readLoopIter { handler := some (.user 7) } (.readErr "eof") 5).delivered =
      [mkErrorEvent ("WebSocket read error: " ++ "eof") 5] :=
  ⟨(c3_fatal_error_behaviour { handler := some (.user 7) } "eof" 5 rfl rfl).1,
   (c3_fatal_error_behaviour { handler := some (.user 7) } "eof" 5 rfl rfl).2.2.2.1
     rfl⟩

/-! ## Claim C9 -/

/-- C9: a malformed inbound text frame is recoverable — the iteration
converts the decode failure into a synthetic "error" event delivered
through the normal handler path, keeps the loop running, and changes no
connection state (in particular the connection is not closed). -/
theorem c9_malformed_frame_recoverable (st : ConnState) (now : Int)
    (hcan : st.cancelled = false) :
    (readLoopIter st (.msg textMessage .malformed) now).again = true ∧
    (readLoopIter st (.msg textMessage .malformed) now).st = st ∧
    (st.handler.isSome →
      (readLoopIter st (.msg textMessage .malformed) now).delivered =
        [mkErrorEvent "failed to parse event" now]) ∧
    (st.handler = none →
      (readLoopIter st (.msg textMessage .malformed) now).delivered = []) ∧
    (mkErrorEvent "failed to parse event" now).event = "error" := by
  refine ⟨by simp [readLoopIter, hcan], by simp [readLoopIter, hcan], ?_, ?_, rfl⟩
  · intro hh
    match hhandler : st.handler with
    | some h =>
        simp [readLoopIter, hcan, handleMessage, parseEvent, handleError, hhandler]
    | none => simp [hhandler] at hh
  · intro hh
    simp [readLoopIter, hcan, handleMessage, parseEvent, handleError, hh]

/-- C9 witness: concrete live connection with a registered handler. -/
theorem c9_malformed_frame_recoverable_witness :
    (readLoopIter { handler := some (.user 3) }
        (.msg textMessage .malformed) 9).again = true ∧
    (readLoopIter { handler := some (.user 3) }
        (.msg textMessage .malformed) 9).delivered =
      [mkErrorEvent "failed to parse event" 9] :=
  ⟨(c9_malformed_frame_recoverable { handler := some (.user 3) } 9 rfl).1,
   (c9_malformed_frame_recoverable { handler := some (.user 3) } 9 rfl).2.2.1 rfl⟩

/-! ## `WaitForEvent` (temporary handler composition, single-slot rendezvous) -/

/-- One invocation of the temporary closure `WaitForEvent` installs, on one
inbound event `e`: publish `e` into the single-slot channel when the
discriminator matches and the slot is free (the non-blocking
`select`/`default` send drops it otherwise), then forward `e` unchanged to
the captured previous handler when one was set. Returns the new slot
contents and the events forwarded to the previous handler. -/
def tempStep (orig : Option Handler) (eventType : String) (ch : Option Event)
    (e : Event) : Option Event × List Event :=
  let ch' := if e.event == eventType then
               match ch with
               | none => some e
               | some x => some x
             else ch
  (ch', match orig with
        | some _ => [e]
        | none => [])

/-- The whole stream of events arriving while the wait is pending, pushed
through the temporary handler: final slot contents and all events
forwarded to the previous handler, in order. -/
def processArrivals (orig : Option Handler) (eventType : String) :
    Option Event → List Event → Option Event × List Event
  | ch, [] => (ch, [])
  | ch, e :: rest =>
      let s := tempStep orig eventType ch e
      let t := processArrivals orig eventType s.1 rest
      (t.1, s.2 ++ t.2)

/-- The connection the instant after `WaitForEvent` swapped the handler:
the temporary handler is the closure over the previously active handler
and the awaited discriminator — composition, not replacement. -/
def WaitForEventInstalled (st : ConnState) (eventType : String) : ConnState :=
  { st with handler := some (.waiter st.handler eventType) }

/-- Which arm of the three-way `select` fires (the channel arm can only
fire when the slot is non-empty; the theorems condition it so). -/
inductive RacePick where
  | chanArm
  | timeoutArm
  | ctxArm

/-- `WaitForEvent`: record the original handler, install the temporary
one, let the arrivals flow through it, race the rendezvous against the
timeout and the connection context, and — on every outcome, via the
deferred restore — put the original handler back. -/
def WaitForEvent (st : ConnState) (eventType : String) (arrivals : List Event)
    (pick : RacePick) : Except String Event × ConnState :=
  let originalHandler := st.handler
  let installed := WaitForEventInstalled st eventType
  let ch := (processArrivals originalHandler eventType none arrivals).1
  let res : Except String Event :=
    match pick, ch with
    | .chanArm, some e => .ok e
    | .chanArm, none => .error ("timeout waiting for event: " ++ eventType)
    | .timeoutArm, _ => .error ("timeout waiting for event: " ++ eventType)
    | .ctxArm, _ => .error ("connection closed while waiting for event: " ++ eventType)
  (res, { installed with handler := originalHandler })

theorem processArrivals_forwarded (orig : Option Handler) (eventType : String)
    (ch : Option Event) (arrivals : List Event) :
    (processArrivals orig eventType ch arrivals).2 =
      if orig.isSome then arrivals else [] := by
  induction arrivals generalizing ch with
  | nil => cases orig <;> simp [processArrivals]
  | cons e rest ih => cases orig <;> simp [processArrivals, tempStep, ih]

theorem processArrivals_slot_full (orig : Option Handler) (eventType : String)
    (x : Event) (arrivals : List Event) :
    (processArrivals orig eventType (some x) arrivals).1 = some x := by
  induction arrivals with
  | nil => rfl
  | cons e rest ih =>
      by_cases h : (e.event == eventType) = true <;>
        simp [processArrivals, tempStep, h, ih]

theorem processArrivals_slot (orig : Option Handler) (eventType : String)
    (arrivals : List Event) :
    (processArrivals orig eventType none arrivals).1 =
      (arrivals.filter fun e => e.event == eventType).head? := by
  induction arrivals with
  | nil => rfl
  | cons e rest ih =>
      by_cases h : (e.event == eventType) = true <;>
        simp [processArrivals, tempStep, h, ih, processArrivals_slot_full,
          List.filter_cons]

/-! ## Claim C5 -/

/-- C5: `WaitForEvent` restores the previously active handler (indeed the
whole pre-call state) on every one of its mutually exclusive outcomes —
match (returning the matched event from the rendezvous slot), timeout
(failing with the timeout error) and connection closed (failing with the
closed error). -/
theorem c5_wait_restores_handler (st : ConnState) (eventType : String)
    (arrivals : List Event) (pick : RacePick) :
    (WaitForEvent st eventType arrivals pick).2 = st ∧
    (WaitForEvent st eventType arrivals pick).2.handler = st.handler ∧
    (∀ e : Event, pick = .chanArm →
      (processArrivals st.handler eventType none arrivals).1 = some e →
      (WaitForEvent st eventType arrivals pick).1 = .ok e) ∧
    (pick = .timeoutArm →
      (WaitForEvent st eventType arrivals pick).1 =
        .error ("timeout waiting for event: " ++ eventType)) ∧
    (pick = .ctxArm →
      (WaitForEvent st eventType arrivals pick).1 =
        .error ("connection closed while waiting for event: " ++ eventType)) := by
  refine ⟨rfl, rfl, ?_, ?_, ?_⟩
  · intro e hp hch
    subst hp
    simp [WaitForEvent, hch]
  · intro hp
    subst hp
    rfl
  · intro hp
    subst hp
    rfl

/-- C5 witness: a matching arrival on the channel arm yields that event
and the original handler afterwards; the timeout arm yields the timeout
error and the same restoration. -/
theorem c5_wait_restores_handler_witness :
    (WaitForEvent { handler := some (.user 1) } "answer"
        [{ event := "answer" }] .chanArm).1 = .ok { event := "answer" } ∧
    (WaitForEvent { handler := some (.user 1) } "answer"
        [{ event := "answer" }] .chanArm).2.handler = some (.user 1) ∧
    (WaitForEvent { handler := some (.user 1) } "ringing" [] .timeoutArm).1 =
      .error ("timeout waiting for event: " ++ "ringing") :=
  ⟨(c5_wait_restores_handler { handler := some (.user 1) } "answer"
      [{ event := "answer" }] .chanArm).2.2.1 { event := "answer" } rfl rfl,
   (c5_wait_restores_handler { handler := some (.user 1) } "answer"
      [{ event := "answer" }] .chanArm).2.1,
   (c5_wait_restores_handler { handler := some (.user 1) } "ringing"
      [] .timeoutArm).2.2.2.1 rfl⟩

/-! ## Claim C6 -/

/-- C6: while a wait is pending the installed handler is the closure over
the previously active handler (composition, not replacement); it forwards
every inbound event unchanged and in order to that previous handler when
one was set (none otherwise), and it publishes exactly the first event
matching the awaited discriminator into the single-slot rendezvous (later
matches are dropped by the non-blocking send). -/
theorem c6_temporary_handler_composition (st : ConnState) (eventType : String)
    (arrivals : List Event) :
    (WaitForEventInstalled st eventType).handler =
      some (.waiter st.handler eventType) ∧
    (processArrivals st.handler eventType none arrivals).2 =
      (if st.handler.isSome then arrivals else []) ∧
    (processArrivals st.handler eventType none arrivals).1 =
      (arrivals.filter fun e => e.event == eventType).head? :=
  ⟨rfl, processArrivals_forwarded st.handler eventType none arrivals,
   processArrivals_slot st.handler eventType arrivals⟩

/-! ## Endpoint resolver (`NewClient`, `connectWebSocket`, `buildWebSocketURL`)

URLs are modelled at character level. `net/url.Parse` is modelled for the
shapes the resolver produces: the query starts at the first question mark,
the scheme is the segment before "://", the host runs to the next slash,
the path is the remainder. Query-string percent-escaping is not modelled
(no claim depends on it). `uuid.New().String()` is an oracle argument
`genId`; the only fact used about it is that a UUID string is non-empty. -/

def httpPre : List Char := ['h', 't', 't', 'p', ':', '/', '/']

def httpsPre : List Char := ['h', 't', 't', 'p', 's', ':', '/', '/']

def wsPre : List Char := ['w', 's', ':', '/', '/']

def wssPre : List Char := ['w', 's', 's', ':', '/', '/']

/-- The scheme-translation step of `buildWebSocketURL`: `http://` becomes
`ws://`, `https://` becomes `wss://` (first-occurrence replacement under a
has-prefix guard is prefix replacement), anything not already `ws://` or
`wss://` gets `ws://` prepended. -/
def translateScheme (u : List Char) : List Char :=
  if httpPre.isPrefixOf u then wsPre ++ u.drop 7
  else if httpsPre.isPrefixOf u then wssPre ++ u.drop 8
  else if ¬ wsPre.isPrefixOf u ∧ ¬ wssPre.isPrefixOf u then wsPre ++ u
  else u

/-- Everything before the first question mark. -/
def preQuery (l : List Char) : List Char := l.takeWhile (· ≠ '?')

/-- Everything after the first question mark (empty when there is none). -/
def rawQuery (l : List Char) : List Char := (l.dropWhile (· ≠ '?')).drop 1

/-- Split off `scheme://`: the scheme and the remainder, or no scheme. -/
def schemeSplit (l : List Char) : List Char × List Char :=
  let sch := l.takeWhile (· ≠ ':')
  let rest := l.dropWhile (· ≠ ':')
  if rest.take 3 = [':', '/', '/'] then (sch, rest.drop 3) else ([], l)

def splitOnChar (c : Char) : List Char → List (List Char)
  | [] => [[]]
  | a :: rest =>
      match splitOnChar c rest with
      | [] => [[a]]
      | g :: gs => if a = c then [] :: g :: gs else (a :: g) :: gs

/-- `url.Values` of a raw query: `&`-separated `key=value` pairs. -/
def parseQuery (raw : List Char) : List (String × String) :=
  match raw with
  | [] => []
  | _ => (splitOnChar '&' raw).map fun kv =>
      (⟨kv.takeWhile (· ≠ '=')⟩, ⟨(kv.dropWhile (· ≠ '=')).drop 1⟩)

/-- Drop every binding of a key (the replacement step of
`url.Values.Set` on the association-list representation of the values
map). -/
def delParam (k : String) : List (String × String) → List (String × String)
  | [] => []
  | p :: rest => if p.1 = k then delParam k rest else p :: delParam k rest

/-- `url.Values.Set`: replace every binding of the key with the one new
value. -/
def setParam (q : List (String × String)) (k v : String) :
    List (String × String) :=
  delParam k q ++ [(k, v)]

/-- `url.Values.Get`: first binding of the key. -/
def getQ : List (String × String) → String → Option String
  | [], _ => none
  | (k', v) :: rest, k => if k' = k then some v else getQ rest k

/-- The resolved endpoint target: scheme, host, path and query of the
WebSocket URL the resolver hands to the dialer. -/
structure WSTarget where
  scheme : String
  host : String
  path : String
  query : List (String × String)

/-- `buildWebSocketURL`: translate the scheme, append the endpoint path,
parse, then set the `id` parameter when the session id is non-empty and
always set the `dump` parameter (`fmt.Sprintf` of the Go bool). -/
def buildWebSocketURL (clientBase endpoint sessionID : String) (dump : Bool) :
    WSTarget :=
  let wsURL := translateScheme clientBase.data
  let full := wsURL ++ endpoint.data
  let sr := schemeSplit (preQuery full)
  let q0 := parseQuery (rawQuery full)
  let q1 := if sessionID ≠ "" then setParam q0 "id" sessionID else q0
  let q2 := setParam q1 "dump" (if dump then "true" else "false")
  ⟨⟨sr.1⟩, ⟨sr.2.takeWhile (· ≠ '/')⟩, ⟨sr.2.dropWhile (· ≠ '/')⟩, q2⟩

/-- `strings.TrimSuffix(baseURL, "/")` as applied by `NewClient`. -/
def NewClientBase (baseURL : String) : String :=
  match baseURL.data.getLast? with
  | some '/' => ⟨baseURL.data.dropLast⟩
  | _ => baseURL

/-- The `ConnectionOptions` struct (Go zero values as defaults). -/
structure ConnectionOptions where
  sessionID : String := ""
  dump : Bool := false

/-- `connectWebSocket`: use the caller-supplied session id verbatim, or
mint a generated one (`genId`, the uuid oracle) when none was supplied,
then resolve the target. -/
def connectWebSocket (baseURL endpoint : String) (options : ConnectionOptions)
    (genId : String) : WSTarget :=
  let sessionID := if options.sessionID = "" then genId else options.sessionID
  buildWebSocketURL (NewClientBase baseURL) endpoint sessionID options.dump

def oOrS : Option String → Option String → Option String
  | some v, _ => some v
  | none, b => b

theorem getQ_append (a b : List (String × String)) (k : String) :
    getQ (a ++ b) k = oOrS (getQ a k) (getQ b k) := by
  induction a with
  | nil => simp [getQ, oOrS]
  | cons p rest ih =>
      obtain ⟨k0, v0⟩ := p
      by_cases h : k0 = k <;> simp [getQ, h, oOrS, ih]

theorem getQ_delParam_self (q : List (String × String)) (k : String) :
    getQ (delParam k q) k = none := by
  induction q with
  | nil => simp [delParam, getQ]
  | cons p rest ih =>
      by_cases h : p.1 = k <;> simp [delParam, h, getQ, ih]

theorem getQ_delParam_ne (q : List (String × String)) (k k0 : String)
    (h : k0 ≠ k) : getQ (delParam k q) k0 = getQ q k0 := by
  induction q with
  | nil => rfl
  | cons p rest ih =>
      have hkk : ¬ k = k0 := fun hc => h hc.symm
      by_cases hp : p.1 = k
      · simp [delParam, hp, getQ, ih, hkk, h]
      · by_cases hk0 : p.1 = k0 <;> simp [delParam, hp, getQ, hk0, ih, h]

theorem getQ_setParam_self (q : List (String × String)) (k v : String) :
    getQ (setParam q k v) k = some v := by
  simp [setParam, getQ_append, getQ_delParam_self, oOrS, getQ]

theorem getQ_setParam_ne (q : List (String × String)) (k v k0 : String)
    (h : k0 ≠ k) : getQ (setParam q k v) k0 = getQ q k0 := by
  have hne : ¬ k = k0 := fun hc => h hc.symm
  rw [setParam, getQ_append, getQ_delParam_ne q k k0 h]
  simp [getQ, hne]
  cases getQ q k0 <;> simp [oOrS]

theorem scheme_wsPre (rest : List Char) :
    (schemeSplit (preQuery (wsPre ++ rest))).1 = ['w', 's'] := rfl

theorem scheme_wssPre (rest : List Char) :
    (schemeSplit (preQuery (wssPre ++ rest))).1 = ['w', 's', 's'] := rfl

/-- The query of the resolved target, as `connectWebSocket` assembles it. -/
theorem connect_query (baseURL endpoint : String) (options : ConnectionOptions)
    (genId : String) (hg : genId ≠ "") :
    (connectWebSocket baseURL endpoint options genId).query =
      setParam
        (setParam
          (parseQuery (rawQuery
            (translateScheme (NewClientBase baseURL).data ++ endpoint.data)))
          "id" (if options.sessionID = "" then genId else options.sessionID))
        "dump" (if options.dump then "true" else "false") := by
  by_cases hs : options.sessionID = "" <;>
    simp [connectWebSocket, buildWebSocketURL, hs, hg]

theorem c7_general (baseURL endpoint : String) (options : ConnectionOptions)
    (genId : String) (hg : genId ≠ "") :
    (∃ sid : String, sid ≠ "" ∧
      getQ (connectWebSocket baseURL endpoint options genId).query "id" =
        some sid ∧
      (options.sessionID ≠ "" → sid = options.sessionID) ∧
      (options.sessionID = "" → sid = genId)) ∧
    getQ (connectWebSocket baseURL endpoint options genId).query "dump" =
      some (if options.dump then "true" else "false") := by
  rw [connect_query baseURL endpoint options genId hg]
  refine ⟨⟨if options.sessionID = "" then genId else options.sessionID,
    ?_, ?_, ?_, ?_⟩, ?_⟩
  · by_cases hs : options.sessionID = "" <;> simp [hs, hg]
  · rw [getQ_setParam_ne _ _ _ _ (by simp), getQ_setParam_self]
  · intro hs
    simp [hs]
  · intro hs
    simp [hs]
  · rw [getQ_setParam_self]

/-! ## Claim C7 -/

/-- C7: for every connection opened through the public connect paths the
resolved target's query always binds `id` to a non-empty session id — the
caller-supplied one verbatim, or the freshly generated `genId` when none
was supplied — and binds `dump` to the boolean rendering of the option;
and concretely, base `http://localhost:8080`, path `/call` and no explicit
session id resolve to scheme `ws`, path `/call`, the generated non-empty
id, and the default `dump=false`. -/
theorem c7_resolved_target_id_dump (genId : String) (hg : genId ≠ "") :
    (∀ baseURL endpoint : String, ∀ options : ConnectionOptions,
      endpoint = "/call" ∨ endpoint = "/call/webrtc" ∨ endpoint = "/call/sip" →
      (∃ sid : String, sid ≠ "" ∧
        getQ (connectWebSocket baseURL endpoint options genId).query "id" =
          some sid ∧
        (options.sessionID ≠ "" → sid = options.sessionID) ∧
        (options.sessionID = "" → sid = genId)) ∧
      (getQ (connectWebSocket baseURL endpoint options genId).query "dump" =
          some "true" ∨
       getQ (connectWebSocket baseURL endpoint options genId).query "dump" =
          some "false")) ∧
    (connectWebSocket "http://localhost:8080" "/call" {} genId).scheme = "ws" ∧
    (connectWebSocket "http://localhost:8080" "/call" {} genId).path = "/call" ∧
    getQ (connectWebSocket "http://localhost:8080" "/call" {} genId).query "id" =
      some genId ∧
    getQ (connectWebSocket "http://localhost:8080" "/call" {} genId).query "dump" =
      some "false" := by
  refine ⟨?_, rfl, rfl, ?_, ?_⟩
  · intro baseURL endpoint options _
    refine ⟨(c7_general baseURL endpoint options genId hg).1, ?_⟩
    have hd := (c7_general baseURL endpoint options genId hg).2
    by_cases hb : options.dump = true
    · left
      simpa [hb] using hd
    · right
      simp only [Bool.not_eq_true] at hb
      simpa [hb] using hd
  · obtain ⟨sid, _, hid, _, hemp⟩ :=
      (c7_general "http://localhost:8080" "/call" {} genId hg).1
    rw [hemp rfl] at hid
    exact hid
  · exact (c7_general "http://localhost:8080" "/call" {} genId hg).2

/-- C7 witness: a concrete 36-character generated id. -/
theorem c7_resolved_target_id_dump_witness :
    (connectWebSocket "http://localhost:8080" "/call" {}
        "550e8400-e29b-41d4-a716-446655440000").scheme = "ws" ∧
    getQ (connectWebSocket "http://localhost:8080" "/call" {}
        "550e8400-e29b-41d4-a716-446655440000").query "id" =
      some "550e8400-e29b-41d4-a716-446655440000" ∧
    getQ (connectWebSocket "http://localhost:8080" "/call" {}
        "550e8400-e29b-41d4-a716-446655440000").query "dump" = some "false" :=
  ⟨(c7_resolved_target_id_dump "550e8400-e29b-41d4-a716-446655440000"
      (by decide)).2.1,
   (c7_resolved_target_id_dump "550e8400-e29b-41d4-a716-446655440000"
      (by decide)).2.2.2.1,
   (c7_resolved_target_id_dump "550e8400-e29b-41d4-a716-446655440000"
      (by decide)).2.2.2.2⟩

/-! ## Claim C8 -/

/-- C8: scheme translation of the resolver — a base address with prefix
`http://` resolves to scheme `ws`, one with prefix `https://` to `wss`,
and one with no recognized scheme defaults to `ws`; concretely,
`https://pbx.example.com` with the WebRTC-flavored path resolves to
`wss`. -/
theorem c8_scheme_translation :
    (∀ base endpoint sessionID : String, ∀ dump : Bool,
      httpPre.isPrefixOf base.data = true →
      (buildWebSocketURL base endpoint sessionID dump).scheme = "ws") ∧
    (∀ base endpoint sessionID : String, ∀ dump : Bool,
      httpsPre.isPrefixOf base.data = true →
      (buildWebSocketURL base endpoint sessionID dump).scheme = "wss") ∧
    (∀ base endpoint sessionID : String, ∀ dump : Bool,
      httpPre.isPrefixOf base.data = false →
      httpsPre.isPrefixOf base.data = false →
      wsPre.isPrefixOf base.data = false →
      wssPre.isPrefixOf base.data = false →
      (buildWebSocketURL base endpoint sessionID dump).scheme = "ws") ∧
    (∀ sessionID : String, ∀ dump : Bool,
      (buildWebSocketURL "https://pbx.example.com" "/call/webrtc"
        sessionID dump).scheme = "wss") := by
  refine ⟨?_, ?_, ?_, fun sessionID dump => rfl⟩
  · intro base endpoint sessionID dump h
    obtain ⟨t, ht⟩ := List.isPrefixOf_iff_prefix.mp h
    show (⟨(schemeSplit (preQuery
        (translateScheme base.data ++ endpoint.data))).1⟩ : String) = "ws"
    have h1 : translateScheme base.data = wsPre ++ base.data.drop 7 := by
      simp [translateScheme, h]
    have h2 : base.data.drop 7 = t := by
      rw [← ht]
      rfl
    rw [h1, h2, List.append_assoc, scheme_wsPre]
  · intro base endpoint sessionID dump h
    obtain ⟨t, ht⟩ := List.isPrefixOf_iff_prefix.mp h
    show (⟨(schemeSplit (preQuery
        (translateScheme base.data ++ endpoint.data))).1⟩ : String) = "wss"
    have h0 : httpPre.isPrefixOf base.data = false := by
      rw [← ht]
      rfl
    have h1 : translateScheme base.data = wssPre ++ base.data.drop 8 := by
      simp [translateScheme, h0, h]
    have h2 : base.data.drop 8 = t := by
      rw [← ht]
      rfl
    rw [h1, h2, List.append_assoc, scheme_wssPre]
  · intro base endpoint sessionID dump h1 h2 h3 h4
    show (⟨(schemeSplit (preQuery
        (translateScheme base.data ++ endpoint.data))).1⟩ : String) = "ws"
    have ht : translateScheme base.data = wsPre ++ base.data := by
      simp [translateScheme, h1, h2, h3, h4]
    rw [ht, List.append_assoc, scheme_wsPre]

/-- C8 witness: concrete base addresses for each translation rule. -/
theorem c8_scheme_translation_witness :
    (buildWebSocketURL "http://h" "/call" "s" false).scheme = "ws" ∧
    (buildWebSocketURL "https://h" "/call" "s" false).scheme = "wss" ∧
    (buildWebSocketURL "pbx.local:9000" "/call" "s" true).scheme = "ws" ∧
    (buildWebSocketURL "https://pbx.example.com" "/call/webrtc" "s" false).scheme =
      "wss" :=
  ⟨c8_scheme_translation.1 "http://h" "/call" "s" false rfl,
   c8_scheme_translation.2.1 "https://h" "/call" "s" false rfl,
   c8_scheme_translation.2.2.1 "pbx.local:9000" "/call" "s" true rfl rfl rfl rfl,
   c8_scheme_translation.2.2.2 "s" false⟩

end RustPBX
